import Mathlib

/-!
Verification of the x-agent batch unblock/reconciliation engine.

This file is a shallow embedding, in Lean 4, of the parts of the
repository that the verified properties talk about:

* `src/x_agent/services/x_service.py` — error classification
  (`is_transient_error`), the tenacity retry policy wrapped around remote
  calls, the existence check (`_check_user_exists_v1`), the zombie
  recovery strategies (`_handle_zombie_recovery`) and the primary unblock
  flow (`unblock_user`).
* `src/x_agent/database.py` — the `blocked_users` work-queue table and its
  transactional CRUD primitives (`add_blocked_users`,
  `get_pending_blocked_users`, `clear_pending_blocked_users`,
  `update_user_status`, `update_user_statuses`, counts).
* `src/x_agent/agents/unblock_agent.py` — the batch orchestrator
  (`UnblockAgent.execute`, `_unblock_user_ids`, `unblock_worker`).
* `src/x_agent/migrations/runner.py` together with the transaction
  primitive of `src/x_agent/database.py` (`DatabaseManager.transaction`)
  — the schema migration runner (`run_migrations`).

Remote calls are modelled by their observable outcomes: each call site is
given the outcome the remote service would produce there (success, a
not-found error, a forbidden error, or a generic raised exception carried
as an `ApiError`), and the embedded control flow is translated
statement-by-statement from the Python source.  Timestamps
(`updated_at`), logging and sleeping are not modelled: no verified
property mentions them.
-/

/-- A raised Python exception, as observed by `is_transient_error` in
`src/x_agent/services/x_service.py`.  The fields record exactly the
facts that function inspects: the `isinstance` checks, the
`status_code` / `status` attributes of the attached response (absent
attributes are `none`), and `str(exception)`. -/
structure ApiError where
  isAttributeError : Bool
  isTweepyException : Bool
  isHTTPError : Bool
  statusCode : Option Nat
  statusField : Option Nat
  msg : String
deriving DecidableEq, Repr

/-- Python `pat in s` substring test (for nonempty `pat`). -/
def strContains (s pat : String) : Bool :=
  (s.splitOn pat).length != 1

/-- Python `a or b` over the two `getattr` results, where `None` and `0`
are falsy: `getattr(response, "status_code", None) or
getattr(response, "status", None)`. -/
def falsyOr (a b : Option Nat) : Option Nat :=
  match a with
  | some n => if n != 0 then some n else b
  | none => b

/-- `is_transient_error` from `src/x_agent/services/x_service.py`:
an `AttributeError` whose text contains the NoneType/items pattern, a
tweepy `HTTPException` with a 5xx status, or any tweepy exception whose
text mentions `Connection` or `Timeout`. -/
def is_transient_error (e : ApiError) : Bool :=
  if e.isAttributeError
      && strContains e.msg "\x27NoneType\x27 object has no attribute \x27items\x27" then
    true
  else if e.isTweepyException then
    let status := falsyOr e.statusCode e.statusField
    if e.isHTTPError && (match status with
        | some n => decide (500 ≤ n)
        | none => false) then
      true
    else
      strContains e.msg "Connection" || strContains e.msg "Timeout"
  else
    false

/-- Outcome of the primary v1 `destroy_block` call inside
`unblock_user`: it returns, raises `tweepy.errors.NotFound`, or raises
some other exception `e`. -/
inductive PrimaryResult
  | ok
  | notFound
  | raises (e : ApiError)
deriving DecidableEq, Repr

/-- Outcome of the v1 `get_user` call inside `_check_user_exists_v1`:
it returns, raises `NotFound`, raises `Forbidden`, or raises some other
exception. -/
inductive GetUserResult
  | ok
  | notFound
  | forbidden
  | raises (e : ApiError)
deriving DecidableEq, Repr

/-- Outcome of the v2 unblock request (recovery Strategy A). -/
inductive StrategyAResult
  | ok
  | notFound
  | raises (e : ApiError)
deriving DecidableEq, Repr

/-- Outcome of one v1 call of the block/unblock toggle (recovery
Strategy B): it returns or raises. -/
inductive ToggleResult
  | ok
  | raises (e : ApiError)
deriving DecidableEq, Repr

/-- `_check_user_exists_v1` from `src/x_agent/services/x_service.py`:
`True` when `get_user` succeeds, `False` on `NotFound`, `False` on
`Forbidden` (suspended users are treated as ghosts), `None` when the
check itself errors. -/
def check_user_exists_v1 : GetUserResult → Option Bool
  | .ok => some true
  | .notFound => some false
  | .forbidden => some false
  | .raises _ => none

/-- The remote outcomes seen by `_handle_zombie_recovery`: the v2
unblock request (Strategy A), and the `create_block` / `destroy_block`
pair of the toggle fix (Strategy B). -/
structure ZombieEnv where
  v2Unblock : StrategyAResult
  createBlock : ToggleResult
  destroyBlockToggle : ToggleResult
deriving DecidableEq, Repr

/-- `_handle_zombie_recovery` from `src/x_agent/services/x_service.py`.
Strategy A (v2 unblock) first; on any failure of it, Strategy B
(`create_block` then `destroy_block`); if both fail the function gives
up with `"NOT_FOUND"`.  The second component records whether Strategy B
was invoked at all. -/
def handle_zombie_recovery (env : ZombieEnv) : String × Bool :=
  let toggle : String × Bool :=
    match env.createBlock with
    | .ok =>
      match env.destroyBlockToggle with
      | .ok => ("SUCCESS", true)
      | .raises _ => ("NOT_FOUND", true)
    | .raises _ => ("NOT_FOUND", true)
  match env.v2Unblock with
  | .ok => ("SUCCESS", false)
  | .notFound => toggle
  | .raises _ => toggle

/-- The remote outcomes seen by one attempt of `unblock_user`: the
primary v1 `destroy_block`, the existence check, and the recovery
calls. -/
structure UnblockEnv where
  destroyBlock : PrimaryResult
  getUser : GetUserResult
  zombie : ZombieEnv
deriving DecidableEq, Repr

/-- What one attempt of `unblock_user` did: the value it returned (or,
for a transient exception, the exception it re-raised to tenacity), and
which recovery machinery it invoked. -/
structure UnblockOutcome where
  result : Except ApiError String
  recoveryInvoked : Bool
  strategyBInvoked : Bool
deriving Repr

/-- The body of `unblock_user` from `src/x_agent/services/x_service.py`
(one attempt, inside the tenacity decorator).  On `NotFound` from the
primary call it consults `_check_user_exists_v1`: confirmed present →
zombie recovery, confirmed absent → terminal `"NOT_FOUND"`, inconclusive
→ `"FAILED"`.  Any other exception is re-raised when transient and
otherwise answered with `"FAILED"`. -/
def unblock_user (env : UnblockEnv) : UnblockOutcome :=
  match env.destroyBlock with
  | .ok => ⟨.ok "SUCCESS", false, false⟩
  | .notFound =>
    match check_user_exists_v1 env.getUser with
    | some true =>
      let r := handle_zombie_recovery env.zombie
      ⟨.ok r.fst, true, r.snd⟩
    | some false => ⟨.ok "NOT_FOUND", false, false⟩
    | none => ⟨.ok "FAILED", false, false⟩
  | .raises e =>
    if is_transient_error e then ⟨.error e, false, false⟩
    else ⟨.ok "FAILED", false, false⟩

/-- One attempt of a remote call wrapped by the tenacity decorator:
either a returned value or a raised exception. -/
inductive Attempt
  | ok (s : String)
  | raises (e : ApiError)
deriving DecidableEq, Repr

/-- The tenacity loop of `@retry(stop=stop_after_attempt(n),
retry=retry_if_exception(is_transient_error), reraise=True)`:
`f k` is the outcome of the `k`-th attempt, `retriesLeft` the number of
further attempts the stop condition still allows.  A non-transient
exception propagates at once; a transient one is re-raised unchanged
once the attempt budget is exhausted.  Returns the final outcome and the
number of attempts made. -/
def tenacityRun (f : Nat → Attempt) : Nat → Nat → Except ApiError String × Nat
  | att, retriesLeft =>
    match f att with
    | .ok s => (.ok s, att)
    | .raises e =>
      if is_transient_error e then
        match retriesLeft with
        | 0 => (.error e, att)
        | r + 1 => tenacityRun f (att + 1) r
      else
        (.error e, att)

/-- `attempt f maxAttempts`: run `f` under
`stop_after_attempt(maxAttempts)`, starting at attempt 1. -/
def attemptCall (f : Nat → Attempt) (maxAttempts : Nat) : Except ApiError String × Nat :=
  tenacityRun f 1 (maxAttempts - 1)

/-- One row of the `blocked_users` work-queue table:
`(user_id PRIMARY KEY, status TEXT DEFAULT PENDING)`.  The `updated_at`
column is not modelled (no verified property mentions it). -/
structure Row where
  user_id : Nat
  status : String
deriving DecidableEq, Repr

/-- The `blocked_users` table, in row order (`user_id` is a primary key,
so `INSERT OR IGNORE` keeps it unique). -/
abbrev Table := List Row

/-- `INSERT OR IGNORE INTO blocked_users (user_id, status) VALUES (?, "PENDING")`
for one id: a no-op when a row with that `user_id` exists. -/
def insertOrIgnorePending (t : Table) (uid : Nat) : Table :=
  if t.any (fun r => r.user_id == uid) then t
  else t ++ [{ user_id := uid, status := "PENDING" }]

/-- `add_blocked_users` from `src/x_agent/database.py`: `executemany` of
`INSERT OR IGNORE` over the fetched ids (given here in their iteration
order). -/
def add_blocked_users (t : Table) (ids : List Nat) : Table :=
  ids.foldl insertOrIgnorePending t

/-- `get_pending_blocked_users`: ids of rows whose status is `PENDING`
or `FAILED`, in table order. -/
def get_pending_blocked_users (t : Table) : List Nat :=
  (t.filter (fun r => r.status == "PENDING" || r.status == "FAILED")).map
    (fun r => r.user_id)

/-- `get_all_blocked_users_count`: `SELECT COUNT(*) FROM blocked_users`. -/
def get_all_blocked_users_count (t : Table) : Nat :=
  t.length

/-- `clear_pending_blocked_users`:
`DELETE FROM blocked_users WHERE status = "PENDING"`. -/
def clear_pending_blocked_users (t : Table) : Table :=
  t.filter (fun r => !(r.status == "PENDING"))

/-- `update_user_status`:
`UPDATE blocked_users SET status = ? WHERE user_id = ?`. -/
def update_user_status (t : Table) (uid : Nat) (s : String) : Table :=
  t.map (fun r => if r.user_id == uid then { r with status := s } else r)

/-- `update_user_statuses`: `executemany` of the row update over a batch
of ids. -/
def update_user_statuses (t : Table) (uids : List Nat) (s : String) : Table :=
  uids.foldl (fun acc uid => update_user_status acc uid s) t

/-- The status column of the (first) row with the given id, as a
`SELECT status FROM blocked_users WHERE user_id = ?` would report it. -/
def lookupStatus (t : Table) (uid : Nat) : Option String :=
  (t.find? (fun r => r.user_id == uid)).map Row.status

/-- `unblock_worker` inside `UnblockAgent._unblock_user_ids`
(`src/x_agent/agents/unblock_agent.py`): in dry-run mode it immediately
reports `"SUCCESS"` without touching the service, otherwise it reports
the outcome of `XService.unblock_user` for that id. -/
def unblock_worker (dryRun : Bool) (outcome : Nat → String) (uid : Nat) : String :=
  if dryRun then "SUCCESS" else outcome uid

/-- The ids of one chunk's results that carry the given status, in
result order (`chunk_status_map[status]` in the agent). -/
def chunkStatusUids (results : List (Nat × String)) (s : String) : List Nat :=
  (results.filter (fun p => p.snd == s)).map Prod.fst

/-- The per-chunk database flush of `_unblock_user_ids`: for each of the
statuses `SUCCESS`, `NOT_FOUND`, `FAILED` (the keys of
`chunk_status_map`, in insertion order) with a nonempty id list, batch
update those ids — writing `"UNBLOCKED"` in place of `"SUCCESS"`. -/
def flush_chunk (t : Table) (results : List (Nat × String)) : Table :=
  ["SUCCESS", "NOT_FOUND", "FAILED"].foldl
    (fun acc s =>
      let uids := chunkStatusUids results s
      if uids.isEmpty then acc
      else update_user_statuses acc uids (if s == "SUCCESS" then "UNBLOCKED" else s))
    t

/-- Fuel-driven chunking loop: each step slices off the next
`batch_size = 50` ids.  The fuel only bounds the recursion; every step
consumes at least one element, so with fuel at least the list length
(as `chunks50` supplies) the fuel never runs out and the result is
exactly the `ids_to_unblock[i : i + batch_size]` slicing of the
agent. -/
def chunksGo : Nat → List Nat → List (List Nat)
  | _, [] => []
  | fuel + 1, x :: xs => ((x :: xs).take 50) :: chunksGo fuel ((x :: xs).drop 50)
  | 0, x :: xs => [x :: xs]

/-- `ids_to_unblock[i : i + batch_size]` chunking with the agent's
`batch_size = 50`. -/
def chunks50 (l : List Nat) : List (List Nat) :=
  chunksGo l.length l

/-- The chunk loop of `_unblock_user_ids`: gather each chunk's worker
results, flush them to the store, and count the remote unblock calls
made (one per worker in a real run, none in a dry run). -/
def run_chunks (dryRun : Bool) (outcome : Nat → String) :
    List (List Nat) → Table × Nat → Table × Nat
  | [], acc => acc
  | chunk :: rest, (t, calls) =>
    let results := chunk.map (fun uid => (uid, unblock_worker dryRun outcome uid))
    run_chunks dryRun outcome rest
      (flush_chunk t results, calls + (if dryRun then 0 else chunk.length))

/-- `UnblockAgent._unblock_user_ids`: process the given ids in chunks of
50, flushing each chunk's statuses to the store before the next chunk
starts.  Returns the final store state and the number of remote unblock
calls. -/
def unblock_user_ids (dryRun : Bool) (outcome : Nat → String)
    (t : Table) (ids : List Nat) : Table × Nat :=
  run_chunks dryRun outcome (chunks50 ids) (t, 0)

/-- The remote interactions of one `UnblockAgent.execute` run: the
outcome of `get_blocked_user_ids` (the fetched id set in iteration
order, or the exception it raised), and the per-id outcome of
`unblock_user`. -/
structure ExecuteEnv where
  fetchBlocked : Except ApiError (List Nat)
  outcome : Nat → String

/-- The processing tail of `UnblockAgent.execute`: read the pending ids;
if none, stop; otherwise run `_unblock_user_ids` on them.  Returns the
final store state and the list of ids that were processed. -/
def process_pending (outcome : Nat → String) (t : Table) : Table × List Nat :=
  let pending := get_pending_blocked_users t
  if pending.isEmpty then (t, [])
  else ((unblock_user_ids false outcome t pending).fst, pending)

/-- `UnblockAgent.execute` (the queue path, `user_id is None`) from
`src/x_agent/agents/unblock_agent.py`.  When the queue is empty or a
forced refresh is requested: on refresh first clear the `PENDING` rows,
then fetch the remote target set — an exception from the fetch
propagates out of `execute` — and upsert a nonempty fetched set; an
empty fetched set ends the run early unless a refresh was forced.  The
run then processes the pending ids. -/
def execute (refresh : Bool) (env : ExecuteEnv) (t : Table) :
    Except ApiError (Table × List Nat) :=
  let total := get_all_blocked_users_count t
  if total == 0 || refresh then
    let t1 := if refresh then clear_pending_blocked_users t else t
    match env.fetchBlocked with
    | .error e => .error e
    | .ok fetched =>
      if !fetched.isEmpty then
        .ok (process_pending env.outcome (add_blocked_users t1 fetched))
      else if !refresh then
        .ok (t1, [])
      else
        .ok (process_pending env.outcome t1)
  else
    .ok (process_pending env.outcome t)

/-- The single-target override path of `UnblockAgent.execute`
(`user_id` supplied): a dry run skips the remote call and assumes
success; a `"SUCCESS"` outcome is persisted as `"UNBLOCKED"`, anything
else as `"FAILED"`. -/
def execute_single (dryRun : Bool) (outcome : Nat → String) (uid : Nat)
    (t : Table) : Table :=
  let s := if dryRun then "SUCCESS" else outcome uid
  if s == "SUCCESS" then update_user_status t uid "UNBLOCKED"
  else update_user_status t uid "FAILED"

/-- The durable store as the migration runner sees it: an abstract
journal of applied schema transformations, and the `schema_versions`
ledger rows `(version, description)`. -/
structure Store where
  schema : List String
  ledger : List (Nat × String)
deriving DecidableEq, Repr

/-- One migration of `src/x_agent/migrations/versions`: a version
number, a description, and the forward transformation `up`, which may
raise. -/
structure Migration where
  version : Nat
  description : String
  up : Store → Except String Store

/-- Insert into a version-sorted list (`sorted(migrations, key=version)`). -/
def insertByVersion (m : Migration) : List Migration → List Migration
  | [] => [m]
  | m2 :: rest =>
    if m.version ≤ m2.version then m :: m2 :: rest
    else m2 :: insertByVersion m rest

/-- `sorted(migrations, key=lambda m: m.version)` in
`_get_migration_classes`. -/
def sortByVersion (ms : List Migration) : List Migration :=
  ms.foldr insertByVersion []

/-- The pending subset computed by `run_migrations`: available
migrations, version-sorted, minus those already recorded in the
`schema_versions` ledger. -/
def pendingOf (avail : List Migration) (s : Store) : List Migration :=
  (sortByVersion avail).filter
    (fun m => !((s.ledger.map Prod.fst).contains m.version))

/-- The body of the runner's single transaction: apply each pending
migration's `up` in order, inserting its ledger row right after it; the
first raised error aborts the whole batch. -/
def applyPendingMigrations : List Migration → Store → Except String Store
  | [], s => .ok s
  | m :: rest, s =>
    match m.up s with
    | .error e => .error e
    | .ok s2 =>
      applyPendingMigrations rest
        { s2 with ledger := s2.ledger ++ [(m.version, m.description)] }

/-- `run_migrations` from `src/x_agent/migrations/runner.py`, with the
whole pending batch inside one transaction whose semantics are those of
`DatabaseManager.transaction` in `src/x_agent/database.py`: commit on
success, roll back and re-raise on any exception.  Returns the store
state that is persisted after the run, together with the propagated
error when the transaction aborted.  (The pre-run backup copy and the
`CREATE TABLE IF NOT EXISTS schema_versions` bootstrap do not change the
modelled state.) -/
def run_migrations (avail : List Migration) (s : Store) : Store × Option String :=
  let pending := pendingOf avail s
  if pending.isEmpty then (s, none)
  else
    match applyPendingMigrations pending s with
    | .ok s2 => (s2, none)
    | .error e => (s, some e)

/-- The store states of the `blocked_users` queue reachable from a fresh
database through the operations the repository actually performs on it:
queue population (`add_blocked_users`), the forced-refresh clear
(`clear_pending_blocked_users`), the chunked batch processing of
`_unblock_user_ids` (with arbitrary service outcomes), and the
single-target override path of `execute`. -/
inductive Reachable : Table → Prop
  | init : Reachable []
  | add (ids : List Nat) {t : Table} : Reachable t → Reachable (add_blocked_users t ids)
  | clear {t : Table} : Reachable t → Reachable (clear_pending_blocked_users t)
  | process (dryRun : Bool) (outcome : Nat → String) (ids : List Nat) {t : Table} :
      Reachable t → Reachable (unblock_user_ids dryRun outcome t ids).fst
  | single (dryRun : Bool) (outcome : Nat → String) (uid : Nat) {t : Table} :
      Reachable t → Reachable (execute_single dryRun outcome uid t)

/-- The four status values the specification declares for the work
queue. -/
def specDeclaredStatuses : List String :=
  ["PENDING", "SUCCESS", "NOT_FOUND", "FAILED"]

/-- The status values the code actually stores: successes are persisted
as `UNBLOCKED`. -/
def storedStatuses : List String :=
  ["PENDING", "UNBLOCKED", "NOT_FOUND", "FAILED"]

/-- Whether every row's status lies in the given status list. -/
def tableStatusesIn (t : Table) (allowed : List String) : Bool :=
  t.all (fun r => allowed.contains r.status)

/-- C1: when the primary unblock raises `NotFound` and the existence
check reports the target absent (a `NotFound` or a `Forbidden` —
suspended — answer, both of which `_check_user_exists_v1` maps to
`False`), `unblock_user` returns the terminal `"NOT_FOUND"` and invokes
no recovery strategy. -/
theorem ghost_block_terminal_not_found (env : UnblockEnv)
    (hp : env.destroyBlock = .notFound)
    (hg : env.getUser = .notFound ∨ env.getUser = .forbidden) :
    (unblock_user env).result = .ok "NOT_FOUND" ∧
      (unblock_user env).recoveryInvoked = false := by
  rcases hg with hg | hg <;>
    simp [unblock_user, hp, hg, check_user_exists_v1]

/-- Concrete run of C1: a suspended (Forbidden) target. -/
theorem ghost_block_terminal_not_found_witness :
    (unblock_user ⟨.notFound, .forbidden, ⟨.ok, .ok, .ok⟩⟩).result = .ok "NOT_FOUND" ∧
      (unblock_user ⟨.notFound, .forbidden, ⟨.ok, .ok, .ok⟩⟩).recoveryInvoked = false :=
  ghost_block_terminal_not_found ⟨.notFound, .forbidden, ⟨.ok, .ok, .ok⟩⟩ rfl (Or.inr rfl)

/-- C2: on the zombie path (primary `NotFound`, existence confirmed),
if Strategy A — the v2 unblock surface — succeeds, the overall result is
`"SUCCESS"` and Strategy B (the block/unblock toggle) is never
invoked. -/
theorem zombie_strategy_a_success (env : UnblockEnv)
    (hp : env.destroyBlock = .notFound)
    (hc : check_user_exists_v1 env.getUser = some true)
    (ha : env.zombie.v2Unblock = .ok) :
    (unblock_user env).result = .ok "SUCCESS" ∧
      (unblock_user env).strategyBInvoked = false := by
  simp [unblock_user, hp, hc, handle_zombie_recovery, ha]

/-- Concrete run of C2: the target exists; the v2 unblock works while
the toggle calls would fail. -/
theorem zombie_strategy_a_success_witness :
    (unblock_user ⟨.notFound, .ok, ⟨.ok, .raises ⟨false, false, false, none, none, "x"⟩,
        .raises ⟨false, false, false, none, none, "x"⟩⟩⟩).result = .ok "SUCCESS" ∧
      (unblock_user ⟨.notFound, .ok, ⟨.ok, .raises ⟨false, false, false, none, none, "x"⟩,
        .raises ⟨false, false, false, none, none, "x"⟩⟩⟩).strategyBInvoked = false :=
  zombie_strategy_a_success
    ⟨.notFound, .ok, ⟨.ok, .raises ⟨false, false, false, none, none, "x"⟩,
      .raises ⟨false, false, false, none, none, "x"⟩⟩⟩ rfl rfl rfl

/-- C3: when the existence check itself errors after a primary
`NotFound`, `unblock_user` answers `"FAILED"` — retryable on a later run
— and in particular never `"NOT_FOUND"` on that path. -/
theorem inconclusive_check_returns_failed (env : UnblockEnv) (e : ApiError)
    (hp : env.destroyBlock = .notFound)
    (hg : env.getUser = .raises e) :
    (unblock_user env).result = .ok "FAILED" ∧
      (unblock_user env).result ≠ .ok "NOT_FOUND" := by
  simp [unblock_user, hp, hg, check_user_exists_v1]

/-- Concrete run of C3: the `get_user` verification raises a generic
error. -/
theorem inconclusive_check_returns_failed_witness :
    (unblock_user ⟨.notFound, .raises ⟨false, false, false, none, none, "boom"⟩,
        ⟨.ok, .ok, .ok⟩⟩).result = .ok "FAILED" ∧
      (unblock_user ⟨.notFound, .raises ⟨false, false, false, none, none, "boom"⟩,
        ⟨.ok, .ok, .ok⟩⟩).result ≠ .ok "NOT_FOUND" :=
  inconclusive_check_returns_failed
    ⟨.notFound, .raises ⟨false, false, false, none, none, "boom"⟩, ⟨.ok, .ok, .ok⟩⟩
    ⟨false, false, false, none, none, "boom"⟩ rfl rfl

/-- C4: under `stop_after_attempt(3)` with `reraise=True`, a call whose
every attempt raises a transient error is attempted exactly 3 times and
the last transient error is then re-raised to the caller. -/
theorem retry_exhausts_and_reraises (f : Nat → Attempt) (e1 e2 e3 : ApiError)
    (h1 : f 1 = .raises e1) (h2 : f 2 = .raises e2) (h3 : f 3 = .raises e3)
    (t1 : is_transient_error e1 = true) (t2 : is_transient_error e2 = true)
    (t3 : is_transient_error e3 = true) :
    attemptCall f 3 = (.error e3, 3) := by
  simp [attemptCall, tenacityRun, h1, h2, h3, t1, t2, t3]

/-- A 503 HTTP error from the remote service, which
`is_transient_error` classifies as transient. -/
def err503 : ApiError := ⟨false, true, true, some 503, none, "Service Unavailable"⟩

/-- Concrete run of C4: every attempt raises a 503. -/
theorem retry_exhausts_and_reraises_witness :
    attemptCall (fun _ => .raises err503) 3 = (.error err503, 3) :=
  retry_exhausts_and_reraises (fun _ => .raises err503) err503 err503 err503
    rfl rfl rfl rfl rfl rfl

/-- Whether the queue already holds a row for the given id (the
`INSERT OR IGNORE` uniqueness test on the primary key). -/
def containsUser (t : Table) (uid : Nat) : Bool :=
  t.any (fun r => r.user_id == uid)

/-- Rows appended behind an id that is already present do not change
what a status lookup for that id reports. -/
theorem lookupStatus_append_of_contains (t l : Table) (uid : Nat)
    (h : containsUser t uid = true) :
    lookupStatus (t ++ l) uid = lookupStatus t uid := by
  unfold lookupStatus
  rw [List.find?_append]
  have hsome : (t.find? (fun r => r.user_id == uid)).isSome := by
    rw [List.find?_isSome]
    exact List.any_eq_true.mp h
  cases hfind : t.find? (fun r => r.user_id == uid) with
  | none => rw [hfind] at hsome; simp at hsome
  | some r => simp [hfind]

/-- `INSERT OR IGNORE` of one id keeps every already-present id
present. -/
theorem containsUser_insertOrIgnorePending (t : Table) (v uid : Nat)
    (h : containsUser t uid = true) :
    containsUser (insertOrIgnorePending t v) uid = true := by
  unfold insertOrIgnorePending
  split
  · exact h
  · unfold containsUser at h ⊢
    rw [List.any_append, h]
    rfl

/-- `INSERT OR IGNORE` of one id does not change the status lookup of
an already-present id. -/
theorem lookupStatus_insertOrIgnorePending (t : Table) (v uid : Nat)
    (h : containsUser t uid = true) :
    lookupStatus (insertOrIgnorePending t v) uid = lookupStatus t uid := by
  unfold insertOrIgnorePending
  split
  · rfl
  · exact lookupStatus_append_of_contains t _ uid h

/-- C5: `add_blocked_users` is idempotent on present ids — for every
store state and every fetched id list, the status lookup of an id that
already has a row is unchanged by the upsert; in particular a
non-PENDING status is never reset to PENDING. -/
theorem add_blocked_users_idempotent (t : Table) (ids : List Nat) (uid : Nat)
    (h : containsUser t uid = true) :
    lookupStatus (add_blocked_users t ids) uid = lookupStatus t uid := by
  induction ids generalizing t with
  | nil => rfl
  | cons v rest ih =>
    show lookupStatus (add_blocked_users (insertOrIgnorePending t v) rest) uid = _
    rw [ih (insertOrIgnorePending t v) (containsUser_insertOrIgnorePending t v uid h),
      lookupStatus_insertOrIgnorePending t v uid h]

/-- Concrete run of C5: re-adding id 5, whose row is already FAILED,
leaves it FAILED. -/
theorem add_blocked_users_idempotent_witness :
    lookupStatus (add_blocked_users [⟨5, "FAILED"⟩] [5, 6]) 5 =
      lookupStatus [⟨5, "FAILED"⟩] 5 :=
  add_blocked_users_idempotent [⟨5, "FAILED"⟩] [5, 6] 5 (by decide)

/-- C6: `clear_pending_blocked_users` deletes only PENDING rows, so the
forced-refresh sequence (clear, then upsert the fetched set) starting
from targets 1 (SUCCESS) and 2 (PENDING) with fetched set 1, 2, 3
leaves target 1 SUCCESS, target 2 PENDING and target 3 newly
PENDING. -/
theorem forced_refresh_preserves_terminal :
    lookupStatus (add_blocked_users
        (clear_pending_blocked_users [⟨1, "SUCCESS"⟩, ⟨2, "PENDING"⟩]) [1, 2, 3]) 1 =
      some "SUCCESS" ∧
    lookupStatus (add_blocked_users
        (clear_pending_blocked_users [⟨1, "SUCCESS"⟩, ⟨2, "PENDING"⟩]) [1, 2, 3]) 2 =
      some "PENDING" ∧
    lookupStatus (add_blocked_users
        (clear_pending_blocked_users [⟨1, "SUCCESS"⟩, ⟨2, "PENDING"⟩]) [1, 2, 3]) 3 =
      some "PENDING" := by
  decide

/-- C7: if the forward transformation of any pending migration raises
during the batch, the single transaction wrapping all pending
migrations rolls back and the error propagates — the persisted store is
exactly the pre-run store, with no schema change and no
`schema_versions` row from that run. -/
theorem migration_batch_atomic (avail : List Migration) (s : Store) (e : String)
    (h : applyPendingMigrations (pendingOf avail s) s = .error e) :
    run_migrations avail s = (s, some e) := by
  have hne : (pendingOf avail s).isEmpty = false := by
    cases hp : pendingOf avail s with
    | nil => rw [hp] at h; simp [applyPendingMigrations] at h
    | cons a l => rfl
  simp [run_migrations, hne, h]

/-- A migration whose forward transformation succeeds. -/
def initialMigration : Migration :=
  ⟨1, "initial schema", fun s => .ok { s with schema := s.schema ++ ["initial schema"] }⟩

/-- A migration whose forward transformation raises. -/
def failingMigration : Migration :=
  ⟨2, "add listed_count", fun _ => .error "disk full"⟩

/-- Concrete run of C7: migration 1 applies, migration 2 raises, and
the persisted store is exactly the fresh pre-run store. -/
theorem migration_batch_atomic_witness :
    run_migrations [initialMigration, failingMigration] ⟨[], []⟩ =
      (⟨[], []⟩, some "disk full") :=
  migration_batch_atomic [initialMigration, failingMigration] ⟨[], []⟩ "disk full" rfl

/-- The non-empty work queue in place before the failing forced
refresh of the C8 scenario. -/
def syncFailTable : Table := [⟨1, "UNBLOCKED"⟩, ⟨2, "FAILED"⟩]

/-- The exception raised by `get_blocked_user_ids` in the C8
scenario. -/
def syncFailError : ApiError := ⟨false, true, false, none, none, "Connection reset by peer"⟩

/-- Counterexample to C8 as stated: with a non-empty queue and a forced
refresh whose target-set fetch raises, `execute` propagates the
exception — the run aborts (`_run_agent` then exits with code 1) and
the queued items are not processed, so the failure is fatal rather than
non-fatal. -/
theorem sync_fetch_exception_is_fatal :
    execute true ⟨.error syncFailError, fun _ => "SUCCESS"⟩ syncFailTable =
      .error syncFailError := by
  rfl

/-- C8 (amended): during a forced refresh, a target-set fetch that
comes back empty is non-fatal — `execute` skips the upsert and proceeds
to process the items already in the queue (whose PENDING rows the
forced refresh has just cleared). -/
theorem sync_empty_fetch_nonfatal (t : Table) (outcome : Nat → String) :
    execute true ⟨.ok [], outcome⟩ t =
      .ok (process_pending outcome (clear_pending_blocked_users t)) := by
  simp [execute]

/-- `contains` distributes over list append. -/
theorem contains_append_nat (l1 l2 : List Nat) (a : Nat) :
    (l1 ++ l2).contains a = (l1.contains a || l2.contains a) := by
  induction l1 with
  | nil => simp
  | cons x xs ih => simp [List.contains_cons, ih, Bool.or_assoc]

/-- A batch status update is a per-row map: rows whose id is in the
batch get the new status, every other row is untouched. -/
theorem update_user_statuses_eq_map (uids : List Nat) (s : String) (t : Table) :
    update_user_statuses t uids s =
      t.map (fun r => if uids.contains r.user_id then { r with status := s } else r) := by
  induction uids generalizing t with
  | nil => simp [update_user_statuses]
  | cons u rest ih =>
    show update_user_statuses (update_user_status t u s) rest s = _
    rw [ih, update_user_status, List.map_map]
    refine List.map_congr_left (fun r _ => ?_)
    obtain ⟨rid, rst⟩ := r
    by_cases h : rid = u
    · simp [Function.comp, h, List.contains_cons]
    · simp [Function.comp, h, List.contains_cons]

/-- In a chunk whose results all carry the same status, the per-status
id selection collapses: the matching status selects the whole chunk,
any other status selects nothing. -/
theorem chunkStatusUids_const (chunk : List Nat) (s s2 : String) :
    chunkStatusUids (chunk.map (fun uid => (uid, s))) s2 =
      if s == s2 then chunk else [] := by
  induction chunk with
  | nil => simp [chunkStatusUids]
  | cons a l ih =>
    simp only [chunkStatusUids, List.map_cons, List.filter_cons] at ih ⊢
    by_cases h : (s == s2) = true <;> simp [h] at ih ⊢ <;> exact ih

/-- Flushing a chunk whose every worker reported `"SUCCESS"` batch-sets
those ids to `"UNBLOCKED"` and writes nothing else. -/
theorem flush_chunk_all_success (t : Table) (chunk : List Nat) :
    flush_chunk t (chunk.map (fun uid => (uid, "SUCCESS"))) =
      update_user_statuses t chunk "UNBLOCKED" := by
  unfold flush_chunk
  simp only [List.foldl_cons, List.foldl_nil, chunkStatusUids_const]
  by_cases h : chunk.isEmpty
  · cases chunk with
    | nil => simp [update_user_statuses]
    | cons a l => simp at h
  · simp [h]

/-- Joining the 50-sized chunks gives back the original id list. -/
theorem chunksGo_flatten (fuel : Nat) (l : List Nat) :
    (chunksGo fuel l).flatten = l := by
  induction fuel generalizing l with
  | zero => cases l <;> simp [chunksGo]
  | succ n ih =>
    cases l with
    | nil => simp [chunksGo]
    | cons x xs => simp [chunksGo, ih]

/-- `chunks50` is a partition of its input. -/
theorem chunks50_flatten (l : List Nat) : (chunks50 l).flatten = l :=
  chunksGo_flatten l.length l

/-- A dry run of the chunk loop performs no remote calls and sets every
processed id's row to `"UNBLOCKED"`. -/
theorem run_chunks_dry_eq (outcome : Nat → String) (chunks : List (List Nat))
    (t : Table) (calls : Nat) :
    run_chunks true outcome chunks (t, calls) =
      (t.map (fun r => if chunks.flatten.contains r.user_id
          then { r with status := "UNBLOCKED" } else r), calls) := by
  induction chunks generalizing t with
  | nil => simp [run_chunks]
  | cons c rest ih =>
    show run_chunks true outcome rest
        (flush_chunk t (c.map (fun uid => (uid, unblock_worker true outcome uid))),
          calls + 0) = _
    simp only [unblock_worker, if_pos, Nat.add_zero]
    rw [flush_chunk_all_success, update_user_statuses_eq_map, ih, List.map_map]
    refine congrArg (fun x => (x, calls)) ?_
    refine List.map_congr_left (fun r _ => ?_)
    obtain ⟨rid, rst⟩ := r
    simp only [Function.comp, List.flatten_cons, contains_append_nat]
    by_cases h1 : rid ∈ c <;> by_cases h2 : rid ∈ rest.flatten <;>
      simp [h1, h2, List.mem_flatten] at *

/-- The store states that a dry-run chunk loop and an all-successful
real chunk loop produce are identical, whatever the call counters. -/
theorem run_chunks_fst_dry_eq_success (outcome : Nat → String)
    (chunks : List (List Nat)) (t : Table) (c1 c2 : Nat) :
    (run_chunks true outcome chunks (t, c1)).fst =
      (run_chunks false (fun _ => "SUCCESS") chunks (t, c2)).fst := by
  induction chunks generalizing t c1 c2 with
  | nil => rfl
  | cons c rest ih =>
    show (run_chunks true outcome rest
        (flush_chunk t (c.map (fun uid => (uid, unblock_worker true outcome uid))),
          c1 + 0)).fst =
      (run_chunks false (fun _ => "SUCCESS") rest
        (flush_chunk t (c.map (fun uid => (uid, unblock_worker false (fun _ => "SUCCESS") uid))),
          c2 + (if false then 0 else c.length))).fst
    simp only [unblock_worker, if_pos, if_neg]
    exact ih _ _ _

/-- C10: a dry run of the chunked unblock loop performs zero remote
unblock calls yet writes to the durable store exactly as a fully
successful real run would: every processed id's row is set to the
terminal success value `"UNBLOCKED"` and every other row is
untouched. -/
theorem dry_run_mutates_like_success_run (t : Table) (ids : List Nat)
    (outcome : Nat → String) :
    unblock_user_ids true outcome t ids =
      ((unblock_user_ids false (fun _ => "SUCCESS") t ids).fst, 0) ∧
    (unblock_user_ids true outcome t ids).fst =
      t.map (fun r => if ids.contains r.user_id
          then { r with status := "UNBLOCKED" } else r) := by
  constructor
  · have hfst := run_chunks_fst_dry_eq_success outcome (chunks50 ids) t 0 0
    unfold unblock_user_ids
    rw [← hfst, run_chunks_dry_eq]
  · unfold unblock_user_ids
    rw [run_chunks_dry_eq]
    simp only [chunks50_flatten]

/-- A batch update whose written status is in the allowed set keeps all
row statuses in the allowed set. -/
theorem tableStatusesIn_update_batch (t : Table) (uids : List Nat) (s : String)
    (allowed : List String) (hs : allowed.contains s = true)
    (ht : tableStatusesIn t allowed = true) :
    tableStatusesIn (update_user_statuses t uids s) allowed = true := by
  rw [update_user_statuses_eq_map]
  rw [tableStatusesIn, List.all_eq_true] at ht ⊢
  intro r hr
  obtain ⟨r0, hr0, rfl⟩ := List.mem_map.mp hr
  by_cases h : r0.user_id ∈ uids
  · simpa [h] using hs
  · simpa [h] using ht r0 hr0

/-- A single-row update whose written status is in the allowed set
keeps all row statuses in the allowed set. -/
theorem tableStatusesIn_update_one (t : Table) (uid : Nat) (s : String)
    (allowed : List String) (hs : allowed.contains s = true)
    (ht : tableStatusesIn t allowed = true) :
    tableStatusesIn (update_user_status t uid s) allowed = true :=
  tableStatusesIn_update_batch t [uid] s allowed hs ht

/-- One per-status write of the chunk flush keeps all row statuses in
the stored set, because the written value (`"UNBLOCKED"` in place of
`"SUCCESS"`) always lies in it. -/
theorem tableStatusesIn_flush_step (acc : Table) (uids : List Nat) (s : String)
    (hval : storedStatuses.contains (if s == "SUCCESS" then "UNBLOCKED" else s) = true)
    (hacc : tableStatusesIn acc storedStatuses = true) :
    tableStatusesIn (if uids.isEmpty then acc
        else update_user_statuses acc uids (if s == "SUCCESS" then "UNBLOCKED" else s))
      storedStatuses = true := by
  split
  · exact hacc
  · exact tableStatusesIn_update_batch _ _ _ _ hval hacc

/-- Flushing any chunk result keeps all row statuses in the stored
set. -/
theorem tableStatusesIn_flush_chunk (t : Table) (results : List (Nat × String))
    (ht : tableStatusesIn t storedStatuses = true) :
    tableStatusesIn (flush_chunk t results) storedStatuses = true := by
  unfold flush_chunk
  simp only [List.foldl_cons, List.foldl_nil]
  exact tableStatusesIn_flush_step _ _ "FAILED" (by decide)
    (tableStatusesIn_flush_step _ _ "NOT_FOUND" (by decide)
      (tableStatusesIn_flush_step _ _ "SUCCESS" (by decide) ht))

/-- The whole chunk loop keeps all row statuses in the stored set,
whatever the service outcomes are. -/
theorem run_chunks_statuses (dryRun : Bool) (outcome : Nat → String)
    (chunks : List (List Nat)) (t : Table) (calls : Nat)
    (ht : tableStatusesIn t storedStatuses = true) :
    tableStatusesIn (run_chunks dryRun outcome chunks (t, calls)).fst
      storedStatuses = true := by
  induction chunks generalizing t calls with
  | nil => exact ht
  | cons c rest ih => exact ih _ _ (tableStatusesIn_flush_chunk _ _ ht)

/-- `INSERT OR IGNORE` keeps all row statuses in the stored set: the
only status it can write is `"PENDING"`. -/
theorem tableStatusesIn_insert (t : Table) (uid : Nat)
    (ht : tableStatusesIn t storedStatuses = true) :
    tableStatusesIn (insertOrIgnorePending t uid) storedStatuses = true := by
  unfold insertOrIgnorePending
  split
  · exact ht
  · rw [tableStatusesIn, List.all_append]
    rw [tableStatusesIn] at ht
    rw [ht]
    simp [storedStatuses]

/-- Queue population keeps all row statuses in the stored set. -/
theorem add_blocked_users_statuses (t : Table) (ids : List Nat)
    (ht : tableStatusesIn t storedStatuses = true) :
    tableStatusesIn (add_blocked_users t ids) storedStatuses = true := by
  induction ids generalizing t with
  | nil => exact ht
  | cons v rest ih => exact ih _ (tableStatusesIn_insert _ _ ht)

/-- Deleting the PENDING rows keeps all row statuses in the stored
set. -/
theorem clear_pending_statuses (t : Table)
    (ht : tableStatusesIn t storedStatuses = true) :
    tableStatusesIn (clear_pending_blocked_users t) storedStatuses = true := by
  unfold clear_pending_blocked_users
  rw [tableStatusesIn, List.all_eq_true] at ht ⊢
  intro r hr
  exact ht r (List.mem_filter.mp hr).1

/-- Whichever branch the success test takes, the single-target write is
`"UNBLOCKED"` or `"FAILED"`, both in the stored set. -/
theorem execute_single_statuses_aux (t : Table) (uid : Nat) (s : String)
    (ht : tableStatusesIn t storedStatuses = true) :
    tableStatusesIn (if s == "SUCCESS" then update_user_status t uid "UNBLOCKED"
      else update_user_status t uid "FAILED") storedStatuses = true := by
  split
  · exact tableStatusesIn_update_one t uid "UNBLOCKED" storedStatuses (by decide) ht
  · exact tableStatusesIn_update_one t uid "FAILED" storedStatuses (by decide) ht

/-- The single-target override path writes only `"UNBLOCKED"` or
`"FAILED"`, both in the stored set. -/
theorem execute_single_statuses (dryRun : Bool) (outcome : Nat → String)
    (uid : Nat) (t : Table)
    (ht : tableStatusesIn t storedStatuses = true) :
    tableStatusesIn (execute_single dryRun outcome uid t) storedStatuses = true :=
  execute_single_statuses_aux t uid (if dryRun then "SUCCESS" else outcome uid) ht

/-- C9 (amended): in every store state reachable through the
repository's queue operations, every row's status is one of `PENDING`,
`UNBLOCKED`, `NOT_FOUND`, `FAILED` — the code records successful
unblocks as `UNBLOCKED`, so the spec's `SUCCESS` never reaches the
store. -/
theorem reachable_statuses (t : Table) (h : Reachable t) :
    tableStatusesIn t storedStatuses = true := by
  induction h with
  | init => rfl
  | add ids _ ih => exact add_blocked_users_statuses _ ids ih
  | clear _ ih => exact clear_pending_statuses _ ih
  | process dryRun outcome ids _ ih => exact run_chunks_statuses _ _ _ _ _ ih
  | single dryRun outcome uid _ ih => exact execute_single_statuses _ _ _ _ ih

/-- Concrete run of C9 (amended): populate the queue with id 1 and
process it successfully; the resulting store stays inside the stored
status set. -/
theorem reachable_statuses_witness :
    tableStatusesIn (unblock_user_ids false (fun _ => "SUCCESS")
      (add_blocked_users [] [1]) [1]).fst storedStatuses = true :=
  reachable_statuses _
    (Reachable.process false (fun _ => "SUCCESS") [1] (Reachable.add [1] Reachable.init))

/-- Counterexample to C9 as stated: after the queue [id 1, PENDING] is
processed with a successful unblock, the stored status is `UNBLOCKED`,
which is not one of the four enum values PENDING, SUCCESS, NOT_FOUND,
FAILED that the specification declares. -/
theorem stored_status_escapes_spec_enum :
    tableStatusesIn (unblock_user_ids false (fun _ => "SUCCESS")
      (add_blocked_users [] [1]) [1]).fst specDeclaredStatuses = false := by
  decide
